import Mathlib

/-!
Verification of the build/instrument/fuzz orchestration in
src/fuzzers/aflplusplus_ddisasm/fuzzer.py.

The script is embedded shallowly: process state (filesystem, environment
table, working directory, and the trace of spawned child processes) is a
record, each Python function becomes a state transformer, and fallible
steps return an Except value that carries the state at the point of the
raised exception.  External tools (compiler build script, ddisasm,
gtirb-pprinter, afl-fuzz) are collaborators: their exit codes come from an
oracle parameter and their on-success file effects are modelled from the
external-interface section of the specification.
-/

namespace AflDdisasm

/-- Association-map lookup, first entry whose key matches; this mirrors
Python dictionary access on os.environ and the modelled filesystem. -/
def getA {α : Type} : List (String × α) → String → Option α
  | [], _ => none
  | p :: t, k => if p.1 = k then some p.2 else getA t k

/-- Association-map update: replace the first entry carrying the key, or
append a fresh entry; this mirrors Python dictionary assignment. -/
def setA {α : Type} : List (String × α) → String → α → List (String × α)
  | [], k, v => [(k, v)]
  | p :: t, k, v => if p.1 = k then (k, v) :: t else p :: setA t k v

theorem getA_setA_self {α : Type} (m : List (String × α)) (k : String) (v : α) :
    getA (setA m k v) k = some v := by
  induction m with
  | nil => simp [setA, getA]
  | cons p t ih =>
    by_cases h : p.1 = k
    · simp [setA, getA, h]
    · simp [setA, getA, h, ih]

theorem getA_setA_ne {α : Type} (m : List (String × α)) (v : α) {k k' : String}
    (h : k ≠ k') : getA (setA m k' v) k = getA m k := by
  induction m with
  | nil => simp [setA, getA, Ne.symm h]
  | cons p t ih =>
    by_cases hp : p.1 = k'
    · simp [setA, getA, hp, Ne.symm h, hp ▸ Ne.symm h]
    · by_cases hk : p.1 = k
      · simp [setA, getA, hp, hk, h]
      · simp [setA, getA, hp, hk, ih]

theorem setA_eq_of_getA {α : Type} (m : List (String × α)) (k : String) (v : α)
    (h : getA m k = some v) : setA m k v = m := by
  induction m with
  | nil => simp [getA] at h
  | cons p t ih =>
    by_cases hp : p.1 = k
    · simp [getA, hp] at h
      cases p with
      | mk pk pv => simp_all [setA]
    · simp [getA, hp] at h
      simp [setA, hp, ih h]

theorem setA_eq_append {α : Type} (m : List (String × α)) (k : String) (v : α)
    (h : ∀ p ∈ m, p.1 ≠ k) : setA m k v = m ++ [(k, v)] := by
  induction m with
  | nil => simp [setA]
  | cons p t ih =>
    have hp : p.1 ≠ k := h p (by simp)
    simp [setA, hp]
    exact ih (fun q hq => h q (by simp [hq]))

/-- Byte-wise check that the first character list starts the second one. -/
def chPre : List Char → List Char → Bool
  | [], _ => true
  | _ :: _, [] => false
  | a :: as, b :: bs => a = b && chPre as bs

theorem chPre_self_append (l t : List Char) : chPre l (l ++ t) = true := by
  induction l with
  | nil => rfl
  | cons a as ih => simp [chPre, ih]

theorem str_data_append (a b : String) : (a ++ b).data = a.data ++ b.data := by
  cases a
  cases b
  rfl

/-- A file on the modelled filesystem: its content and its permission bits. -/
structure FileData where
  content : String
  mode : Nat

/-- Process state seen by fuzzer.py: the filesystem (path to file data), the
environment table (os.environ), the working directory, the set of paths known
to name directories (queried by shutil.copy), and the trace of child-process
argument vectors spawned so far. -/
structure SysState where
  fs : List (String × FileData)
  env : List (String × String)
  cwd : String
  dirs : List String
  calls : List (List String)

deriving instance DecidableEq for FileData
deriving instance DecidableEq for SysState
deriving instance DecidableEq for Except

/-- Exit codes of the external tools, indexed by the argument vector of the
spawned child process; 0 means success, as subprocess check=True expects. -/
def Oracle : Type := List String → Nat

/-- True on a path that names a directory entry inside directory d. -/
def inDir (d p : String) : Bool := chPre (d ++ "/").data p.data

/-- Entries of the modelled filesystem lying inside directory d. -/
def filesInDir (fs : List (String × FileData)) (d : String) :
    List (String × FileData) :=
  fs.filter (fun p => inDir d p.1)

/-- True on absolute paths, which resolve independently of the working
directory. -/
def isAbs (p : String) : Bool :=
  match p.data with
  | [] => false
  | c :: _ => c = '/'

/-- Resolution of a path against the working directory, as the kernel would
do for the child processes spawned by fuzzer.py. -/
def resolve (cwd p : String) : String := if isAbs p then p else cwd ++ "/" ++ p

def recordCall (argv : List String) (st : SysState) : SysState :=
  { st with calls := st.calls ++ [argv] }

/-- Embeds subprocess.run([...], check=True) and subprocess.check_call: the
call is recorded, the external tool effect happens on exit code 0, and a
non-zero exit code raises CalledProcessError. -/
def subprocess_run_check (om : Oracle) (eff : SysState → SysState)
    (argv : List String) (st : SysState) : Except (String × SysState) SysState :=
  let st1 := recordCall argv st
  if om argv = 0 then Except.ok (eff st1)
  else Except.error ("CalledProcessError: " ++ String.intercalate " " argv, st1)

/-- Embeds subprocess.call([...]): the call is recorded and the exit code is
returned to the caller, never raised. -/
def subprocess_call (om : Oracle) (argv : List String) (st : SysState) :
    SysState × Nat :=
  (recordCall argv st, om argv)

/-- Content of the file at a (possibly relative) path, empty if absent; used
only to derive the contents the modelled external tools produce. -/
def contentAt (st : SysState) (p : String) : String :=
  match getA st.fs (resolve st.cwd p) with
  | some fd => fd.content
  | none => ""

/-- Writing a file at a path, as open(path, mode=w) plus write does; fresh
files get the default creation mode 0o644. -/
def fsWrite (st : SysState) (p : String) (fd : FileData) : SysState :=
  { st with fs := setA st.fs (resolve st.cwd p) fd }

/-- Embeds os.chmod on a file that exists; the path fuzzer.py chmods was
written on the line before, so the missing-file branch is never reached. -/
def os_chmod (st : SysState) (p : String) (m : Nat) : SysState :=
  match getA st.fs (resolve st.cwd p) with
  | some fd => { st with fs := setA st.fs (resolve st.cwd p) (FileData.mk fd.content m) }
  | none => st

/-- Final path component, as os.path.basename computes it. -/
def basename (p : String) : String :=
  String.mk ((p.data.reverse.takeWhile (fun c => !(c = '/' : Bool))).reverse)

/-- Embeds shutil.copy: raises FileNotFoundError when the source is absent;
when the destination names a directory the file is copied into it under its
base name, otherwise the destination path is overwritten.  Content and
permission bits are both copied. -/
def shutil_copy (st : SysState) (src dst : String) :
    Except (String × SysState) SysState :=
  match getA st.fs (resolve st.cwd src) with
  | none => Except.error ("FileNotFoundError: " ++ src, st)
  | some fd =>
    let dstPath := if st.dirs.contains dst then dst ++ "/" ++ basename src else dst
    Except.ok { st with fs := setA st.fs (resolve st.cwd dstPath) fd }

/-- Modelled from the spec: the external disassembler is a collaborator whose
internals are out of scope; per the external-interface contract
(disassemble input-binary --ir output-ir-path), on exit code 0 it leaves a
usable IR file at the requested output path. -/
def ddisasmEffect (inputPath irPath : String) (st : SysState) : SysState :=
  fsWrite st irPath (FileData.mk ("GTIRB[" ++ contentAt st inputPath ++ "]") 420)

/-- Modelled from the spec: the external re-assembler/pretty-printer is a
collaborator whose internals are out of scope; per the external-interface
contract, on exit code 0 it emits the re-assembled binary at the path given
after the binary flag. -/
def pprinterEffect (irPath outPath : String) (st : SysState) : SysState :=
  fsWrite st outPath (FileData.mk ("BIN[" ++ contentAt st irPath ++ "]") 493)

/-- Modelled from the spec: the project-supplied build script is a
collaborator whose internals are out of scope; per the external-interface
contract it must produce a binary at OUT slash FUZZ_TARGET on success. -/
def buildScriptEffect (st : SysState) : SysState :=
  match getA st.env "OUT", getA st.env "FUZZ_TARGET" with
  | some out, some tgt => fsWrite st (out ++ "/" ++ tgt) (FileData.mk "ELF" 493)
  | _, _ => st

/-- Embeds create_assembler (fuzzer.py lines 23 to 45): returns the literal
text of the wrapper shell script, two sed rewrites followed by the
instrumenting afl-gcc invocation. -/
def create_assembler : String :=
  "#!/bin/bash\nset -ex\n\nSOURCE=$3\n\n# Add tab before .text and substitute space indentation for tabs to allow instrumentation\nsed \x27s/^\\.text$/\\t.text/\x27 -i $SOURCE\nsed \x27s/^\\s\\\x7b1,\\\x7d/\\t/\x27 -i $SOURCE\n\n\nAFL_AS_FORCE_INSTRUMENT=1 AFL_KEEP_ASSEMBLY=1 /src/afl/afl-gcc $@\n"

/-- Modelled from the spec: the fuzzers/utils module is not under src/; the
only constants build_uninstrumented_benchmark takes from it are the
no-sanitizer compatibility CFLAGS list and the libc++ selection flag, whose
concrete values the spec leaves open, so they are parameters here. -/
structure UtilsConsts where
  noSanitizerCompatCflags : List String
  libcplusplusFlag : String

deriving instance DecidableEq for UtilsConsts

/-- Embeds build_uninstrumented_benchmark (fuzzer.py lines 48 to 69):
sets the plain-toolchain environment variables, copies the standalone fuzzing stub
to the place the build script expects, and runs the build script with
check_call. -/
def build_uninstrumented_benchmark (u : UtilsConsts) (om : Oracle)
    (st : SysState) : Except (String × SysState) SysState :=
  let env1 := setA st.env "CC" "clang"
  let env2 := setA env1 "CXX" "clang++"
  let env3 := setA env2 "CFLAGS" (String.intercalate " " u.noSanitizerCompatCflags)
  let env4 := setA env3 "CXXFLAGS"
    (String.intercalate " " (u.libcplusplusFlag :: u.noSanitizerCompatCflags))
  let env5 := setA env4 "FUZZER_LIB" "/libStandaloneFuzzTarget.a"
  let st1 : SysState := { st with env := env5 }
  match getA st1.env "FUZZER_LIB" with
  | none => Except.error ("KeyError: FUZZER_LIB", st1)
  | some lib =>
    match shutil_copy st1 lib "/usr/lib/libFuzzingEngine.a" with
    | Except.error e => Except.error e
    | Except.ok st2 =>
      match getA st2.env "SRC" with
      | none => Except.error ("KeyError: SRC", st2)
      | some src =>
        subprocess_run_check om buildScriptEffect
          ["/bin/bash", "-ex", src ++ "/build.sh"] st2

/-- Embeds instrument_binary (fuzzer.py lines 72 to 100): reads FUZZ_TARGET
and OUT, runs ddisasm with check=True, writes the wrapper script and chmods
it to 0o777, then runs gtirb-pprinter with check=True. -/
def instrument_binary (om : Oracle) (st : SysState) :
    Except (String × SysState) SysState :=
  match getA st.env "FUZZ_TARGET" with
  | none => Except.error ("TypeError: unsupported operand for NoneType and str", st)
  | some target_binary =>
    let target_gtirb := target_binary ++ ".gtirb"
    let instrumented_binary := target_binary ++ ".dafl"
    match getA st.env "OUT" with
    | none => Except.error ("KeyError: OUT", st)
    | some out =>
      match subprocess_run_check om
          (ddisasmEffect (out ++ "/" ++ target_binary) target_gtirb)
          ["ddisasm", out ++ "/" ++ target_binary, "--ir", target_gtirb] st with
      | Except.error e => Except.error e
      | Except.ok st1 =>
        let assembler := "/src/fuzzers/aflplusplus_ddisasm/assemble.sh"
        let st2 := fsWrite st1 assembler (FileData.mk create_assembler 420)
        let st3 := os_chmod st2 assembler 511
        subprocess_run_check om
          (pprinterEffect target_gtirb (out ++ "/" ++ instrumented_binary))
          ["gtirb-pprinter", target_gtirb, "--syntax", "att", "--binary",
            out ++ "/" ++ instrumented_binary, "--use-gcc", assembler] st3

/-- Embeds build (fuzzer.py lines 103 to 109): uninstrumented build, then
the instrumentation pipeline, then copy afl-fuzz into OUT. -/
def build (u : UtilsConsts) (om : Oracle) (st : SysState) :
    Except (String × SysState) SysState :=
  match build_uninstrumented_benchmark u om st with
  | Except.error e => Except.error e
  | Except.ok st1 =>
    match instrument_binary om st1 with
    | Except.error e => Except.error e
    | Except.ok st2 =>
      match getA st2.env "OUT" with
      | none => Except.error ("KeyError: OUT", st2)
      | some out => shutil_copy st2 "/src/afl/afl-fuzz" out

/-- The placeholder seed the corpus utility synthesizes. -/
def seedFile : FileData := FileData.mk "hi" 420

/-- Modelled from the spec: fuzzers/utils.create_seed_file_for_empty_corpus
is not under src/; per the spec it ensures the input-corpus directory holds
at least one non-empty file, synthesizing a minimal placeholder seed when
the directory is empty and doing nothing otherwise. -/
def create_seed_file_for_empty_corpus (input_corpus : String)
    (fs : List (String × FileData)) : List (String × FileData) :=
  match filesInDir fs input_corpus with
  | [] => setA fs (input_corpus ++ "/default_seed") seedFile
  | _ :: _ => fs

/-- Embeds prepare_fuzz_environment (fuzzer.py lines 112 to 131): sets the
six AFL behavioral flags on os.environ, then ensures a non-empty seed
corpus. -/
def prepare_fuzz_environment (input_corpus : String) (st : SysState) : SysState :=
  let e1 := setA st.env "AFL_NO_UI" "1"
  let e2 := setA e1 "AFL_SKIP_CPUFREQ" "1"
  let e3 := setA e2 "AFL_NO_AFFINITY" "1"
  let e4 := setA e3 "AFL_I_DONT_CARE_ABOUT_MISSING_CRASHES" "1"
  let e5 := setA e4 "AFL_SKIP_CRASHES" "1"
  let e6 := setA e5 "AFL_SHUFFLE_QUEUE" "1"
  { st with env := e6,
            fs := create_seed_file_for_empty_corpus input_corpus st.fs }

/-- Embeds fuzz (fuzzer.py lines 134 to 152): prepares the environment,
derives the instrumented binary name, and launches afl-fuzz with
subprocess.call, discarding the exit code. -/
def fuzz (om : Oracle) (input_corpus output_corpus target_binary : String)
    (st : SysState) : SysState :=
  let st1 := prepare_fuzz_environment input_corpus st
  let instrumented_binary := target_binary ++ ".dafl"
  (subprocess_call om
    ["./afl-fuzz", "-i", input_corpus, "-o", output_corpus, "--",
      instrumented_binary, "@@"] st1).1

/-- GNU sed whitespace class: the characters matched by its escape s inside
the second rewrite of the wrapper script. -/
def isWs (c : Char) : Bool :=
  c = ' ' || c = '\t' || c = '\n' || c = '\r' || c = '\x0b' || c = '\x0c'

/-- Line semantics of the first sed command of the wrapper script: a line
exactly .text becomes tab .text, anything else is untouched. -/
def sedTextLine (l : String) : String := if l = ".text" then "\t.text" else l

/-- Line semantics of the second sed command of the wrapper script: a
maximal non-empty run of leading whitespace becomes a single tab. -/
def sedIndentLine (l : String) : String :=
  match l.data with
  | [] => l
  | c :: _ => if isWs c then String.mk ('\t' :: l.data.dropWhile isWs) else l

/-- The whole rewrite the wrapper script performs on an assembly file, one
full sed pass after the other. -/
def assembleRewrite (ls : List String) : List String :=
  (ls.map sedTextLine).map sedIndentLine

/-- Truth of execute permission for owner, group and others in a mode. -/
def execBitsAll (m : Nat) : Prop :=
  m % 2 = 1 ∧ m / 8 % 2 = 1 ∧ m / 64 % 2 = 1

/-- True exactly on the raised branch of an Except-returning step. -/
def isErr {ε α : Type} : Except ε α → Bool
  | Except.error _ => true
  | Except.ok _ => false

theorem length_dropWhile_le {α : Type} (p : α → Bool) (l : List α) :
    (l.dropWhile p).length ≤ l.length := by
  induction l with
  | nil => simp
  | cons a t ih =>
    rw [List.dropWhile_cons]
    by_cases h : p a = true
    · simp only [if_pos h]
      exact Nat.le_trans ih (by simp)
    · simp [h]

theorem getLast?_append_one {α : Type} (l : List α) (a : α) :
    (l ++ [a]).getLast? = some a := by
  induction l with
  | nil => rfl
  | cons x xs ih =>
    rw [List.cons_append]
    cases h : xs ++ [a] with
    | nil => exact absurd h (by simp)
    | cons y ys => rw [List.getLast?_cons_cons, ← h, ih]

/-- C3: for every assembly text containing some line exactly equal to .text,
after the rewrite performed by the generated wrapper script, the two sed
substitutions applied in order, that line equals a single tab character
followed by .text. -/
theorem c3_text_line_gets_tab (ls : List String) (i : Nat)
    (h : ls[i]? = some ".text") :
    (assembleRewrite ls)[i]? = some "\t.text" := by
  simp [assembleRewrite, List.getElem?_map, h]
  decide

/-- Witness for C3 on the one-line file consisting of .text. -/
theorem c3_text_line_gets_tab_witness :
    ([".text"] : List String)[0]? = some ".text" ∧
      (assembleRewrite [".text"])[0]? = some "\t.text" :=
  ⟨by decide, c3_text_line_gets_tab [".text"] 0 (by decide)⟩

/-- C4: after the wrapper rewrite, a line beginning with whitespace has its
maximal leading whitespace run replaced by exactly one tab, and a line that
neither begins with whitespace nor equals .text is left unchanged. -/
theorem c4_leading_whitespace_to_tab (l : String) :
    (∀ c cs, l.data = c :: cs → isWs c = true →
      (sedIndentLine (sedTextLine l)).data = '\t' :: l.data.dropWhile isWs)
    ∧ (l.data.dropWhile isWs = l.data → l ≠ ".text" →
      sedIndentLine (sedTextLine l) = l) := by
  constructor
  · intro c cs hdata hws
    have hne : l ≠ ".text" := by
      intro he
      subst he
      have h2 : ['.', 't', 'e', 'x', 't'] = c :: cs := hdata
      injection h2 with h1 _
      rw [← h1] at hws
      exact absurd hws (by decide)
    simp [sedTextLine, hne, sedIndentLine, hdata, hws]
  · intro hdrop hne
    simp only [sedTextLine, if_neg hne]
    cases hl : l.data with
    | nil => simp [sedIndentLine, hl]
    | cons c cs =>
      by_cases hws : isWs c = true
      · exfalso
        rw [hl, List.dropWhile_cons, if_pos hws] at hdrop
        have hlen := congrArg List.length hdrop
        have hle := length_dropWhile_le isWs cs
        simp at hlen
        omega
      · simp [sedIndentLine, hl, hws]

/-- Witness for C4 on a space-indented line and on a non-indented line. -/
theorem c4_leading_whitespace_to_tab_witness :
    (sedIndentLine (sedTextLine "  mov")).data =
        '\t' :: (("  mov" : String).data.dropWhile isWs)
      ∧ sedIndentLine (sedTextLine "mov") = "mov" :=
  ⟨(c4_leading_whitespace_to_tab "  mov").1 ' ' [' ', 'm', 'o', 'v']
      (by decide) (by decide),
    (c4_leading_whitespace_to_tab "mov").2 (by decide) (by decide)⟩

/-- C5: fuzz applies the environment preparation before launching the
engine, and launches it with exactly the argument vector afl-fuzz, -i,
input corpus, -o, output corpus, a double dash, the target binary name with
the fixed suffix .dafl appended, and the placeholder. -/
theorem c5_fuzz_prepares_then_launches (om : Oracle) (i o t : String)
    (st : SysState) :
    (fuzz om i o t st).env = (prepare_fuzz_environment i st).env ∧
    (fuzz om i o t st).fs = (prepare_fuzz_environment i st).fs ∧
    (fuzz om i o t st).calls =
      st.calls ++ [["./afl-fuzz", "-i", i, "-o", o, "--", t ++ ".dafl", "@@"]] :=
  ⟨rfl, rfl, rfl⟩

/-- C10: the engine argument vector fuzz launches is determined solely by
the three arguments of fuzz, so two runs whose FUZZ_TARGET environment
values differ launch the engine with the identical argument vector. -/
theorem c10_fuzz_argv_ignores_fuzz_target (om : Oracle)
    (i o t v1 v2 : String) (st : SysState) :
    (fuzz om i o t { st with env := setA st.env "FUZZ_TARGET" v1 }).calls =
      (fuzz om i o t { st with env := setA st.env "FUZZ_TARGET" v2 }).calls ∧
    (fuzz om i o t { st with env := setA st.env "FUZZ_TARGET" v1 }).calls.getLast? =
      some ["./afl-fuzz", "-i", i, "-o", o, "--", t ++ ".dafl", "@@"] := by
  refine ⟨rfl, ?_⟩
  exact getLast?_append_one st.calls _

/-- Lookups of keys the uninstrumented build never assigns pass unchanged
through the five environment assignments it performs. -/
theorem getA_buildenv_other (e : List (String × String)) (x y z k : String)
    (h1 : k ≠ "CC") (h2 : k ≠ "CXX") (h3 : k ≠ "CFLAGS") (h4 : k ≠ "CXXFLAGS")
    (h5 : k ≠ "FUZZER_LIB") :
    getA (setA (setA (setA (setA (setA e "CC" "clang") "CXX" "clang++")
      "CFLAGS" x) "CXXFLAGS" y) "FUZZER_LIB" z) k = getA e k := by
  rw [getA_setA_ne _ _ h5, getA_setA_ne _ _ h4, getA_setA_ne _ _ h3,
    getA_setA_ne _ _ h2, getA_setA_ne _ _ h1]

/-- C2: whenever ddisasm exits non-zero, instrument_binary raises with the
filesystem untouched, in particular without creating the .dafl binary, and
with only the ddisasm invocation added to the process trace, so the
re-assembler is never invoked. -/
theorem c2_ddisasm_failure_aborts (om : Oracle) (st : SysState)
    (tb out : String)
    (hft : getA st.env "FUZZ_TARGET" = some tb)
    (hout : getA st.env "OUT" = some out)
    (hdd : om ["ddisasm", out ++ "/" ++ tb, "--ir", tb ++ ".gtirb"] ≠ 0) :
    ∃ e : String × SysState,
      instrument_binary om st = Except.error e ∧
      e.2.fs = st.fs ∧
      e.2.calls = st.calls ++
        [["ddisasm", out ++ "/" ++ tb, "--ir", tb ++ ".gtirb"]] := by
  refine ⟨("CalledProcessError: " ++ String.intercalate " "
      ["ddisasm", out ++ "/" ++ tb, "--ir", tb ++ ".gtirb"],
    recordCall ["ddisasm", out ++ "/" ++ tb, "--ir", tb ++ ".gtirb"] st),
    ?_, rfl, rfl⟩
  simp [instrument_binary, hft, hout, subprocess_run_check, hdd, recordCall]

def oracleFail : Oracle := fun _ => 1

def oracleZero : Oracle := fun _ => 0

/-- An oracle on which only the re-assembler invocation fails. -/
def oraclePpFail : Oracle := fun argv =>
  match argv with
  | "gtirb-pprinter" :: _ => 1
  | _ => 0

def c2St : SysState :=
  SysState.mk [] [("FUZZ_TARGET", "t"), ("OUT", "/o")] "/w" [] []

/-- Witness for C2: a concrete run whose ddisasm exits 1. -/
theorem c2_ddisasm_failure_aborts_witness :
    ∃ e : String × SysState,
      instrument_binary oracleFail c2St = Except.error e ∧
      e.2.fs = c2St.fs ∧
      e.2.calls = c2St.calls ++
        [["ddisasm", "/o" ++ "/" ++ "t", "--ir", "t" ++ ".gtirb"]] :=
  c2_ddisasm_failure_aborts oracleFail c2St "t" "/o"
    (by decide) (by decide) (by decide)

/-- C9: build runs the uninstrumented build, then the instrumentation
pipeline, then the copy of the afl-fuzz driver into OUT, in that order;
when either sub-step raises, build raises the same error without performing
the later steps, in particular without copying the driver. -/
theorem c9_build_order_and_propagation (u : UtilsConsts) (om : Oracle)
    (st : SysState) :
    (∀ e, build_uninstrumented_benchmark u om st = Except.error e →
      build u om st = Except.error e)
    ∧ (∀ st1 e, build_uninstrumented_benchmark u om st = Except.ok st1 →
      instrument_binary om st1 = Except.error e →
      build u om st = Except.error e)
    ∧ (∀ st1 st2 out, build_uninstrumented_benchmark u om st = Except.ok st1 →
      instrument_binary om st1 = Except.ok st2 →
      getA st2.env "OUT" = some out →
      build u om st = shutil_copy st2 "/src/afl/afl-fuzz" out) := by
  refine ⟨?_, ?_, ?_⟩
  · intro e h
    simp [build, h]
  · intro st1 e h1 h2
    simp [build, h1, h2]
  · intro st1 st2 out h1 h2 h3
    simp [build, h1, h2, h3]

def u0 : UtilsConsts := UtilsConsts.mk [] ""

def c9St : SysState := SysState.mk [] [] "/w" [] []

def c9Err : String × SysState :=
  match build_uninstrumented_benchmark u0 oracleZero c9St with
  | Except.error e => e
  | Except.ok s => ("", s)

/-- Witness for C9: a concrete run whose uninstrumented build raises, so
build raises the same error. -/
theorem c9_build_order_and_propagation_witness :
    build u0 oracleZero c9St = Except.error c9Err :=
  (c9_build_order_and_propagation u0 oracleZero c9St).1 c9Err (by decide)

/-- C6: the final fuzz-run step neither checks nor propagates the engine
exit status, its result state is the same whatever exit codes the oracle
answers, whereas the build script, the disassembler and the re-assembler
each raise on a non-zero child exit status. -/
theorem c6_exit_status_policy :
    (∀ (om om2 : Oracle) (i o t : String) (st : SysState),
        fuzz om i o t st = fuzz om2 i o t st)
    ∧ (∀ (u : UtilsConsts) (om : Oracle) (st : SysState) (src : String)
        (fd : FileData),
        getA st.env "SRC" = some src →
        getA st.fs "/libStandaloneFuzzTarget.a" = some fd →
        om ["/bin/bash", "-ex", src ++ "/build.sh"] ≠ 0 →
        isErr (build_uninstrumented_benchmark u om st) = true)
    ∧ (∀ (om : Oracle) (st : SysState) (tb out : String),
        getA st.env "FUZZ_TARGET" = some tb →
        getA st.env "OUT" = some out →
        om ["ddisasm", out ++ "/" ++ tb, "--ir", tb ++ ".gtirb"] ≠ 0 →
        isErr (instrument_binary om st) = true)
    ∧ (∀ (om : Oracle) (st : SysState) (tb out : String),
        getA st.env "FUZZ_TARGET" = some tb →
        getA st.env "OUT" = some out →
        om ["ddisasm", out ++ "/" ++ tb, "--ir", tb ++ ".gtirb"] = 0 →
        om ["gtirb-pprinter", tb ++ ".gtirb", "--syntax", "att", "--binary",
            out ++ "/" ++ (tb ++ ".dafl"), "--use-gcc",
            "/src/fuzzers/aflplusplus_ddisasm/assemble.sh"] ≠ 0 →
        isErr (instrument_binary om st) = true) := by
  refine ⟨?_, ?_, ?_, ?_⟩
  · intro om om2 i o t st
    rfl
  · intro u om st src fd hsrc hlib hb
    have hsrc5 : getA (setA (setA (setA (setA (setA st.env "CC" "clang")
        "CXX" "clang++") "CFLAGS" (String.intercalate " " u.noSanitizerCompatCflags))
        "CXXFLAGS" (String.intercalate " " (u.libcplusplusFlag :: u.noSanitizerCompatCflags)))
        "FUZZER_LIB" "/libStandaloneFuzzTarget.a") "SRC" = some src := by
      rw [getA_buildenv_other _ _ _ _ _ (by decide) (by decide) (by decide)
        (by decide) (by decide)]
      exact hsrc
    have ha : isAbs "/libStandaloneFuzzTarget.a" = true := by decide
    simp [build_uninstrumented_benchmark, getA_setA_self, shutil_copy, resolve,
      ha, hlib, hsrc5, subprocess_run_check, hb, isErr]
  · intro om st tb out hft hout hdd
    simp [instrument_binary, hft, hout, subprocess_run_check, hdd, isErr]
  · intro om st tb out hft hout hdd hpp
    simp [instrument_binary, hft, hout, subprocess_run_check, hdd, hpp, isErr]

def c6St : SysState :=
  SysState.mk [("/libStandaloneFuzzTarget.a", FileData.mk "AR" 420)]
    [("SRC", "/src"), ("FUZZ_TARGET", "t"), ("OUT", "/o")] "/w" [] []

/-- Witness for C6: concrete runs exercising each of the four conjuncts. -/
theorem c6_exit_status_policy_witness :
    fuzz oracleZero "i" "o" "t" c6St = fuzz oracleFail "i" "o" "t" c6St
    ∧ isErr (build_uninstrumented_benchmark u0 oracleFail c6St) = true
    ∧ isErr (instrument_binary oracleFail c6St) = true
    ∧ isErr (instrument_binary oraclePpFail c6St) = true :=
  ⟨c6_exit_status_policy.1 oracleZero oracleFail "i" "o" "t" c6St,
    c6_exit_status_policy.2.1 u0 oracleFail c6St "/src" (FileData.mk "AR" 420)
      (by decide) (by decide) (by decide),
    c6_exit_status_policy.2.2.1 oracleFail c6St "t" "/o"
      (by decide) (by decide) (by decide),
    c6_exit_status_policy.2.2.2 oraclePpFail c6St "t" "/o"
      (by decide) (by decide) (by decide) (by decide)⟩

theorem inDir_default_seed (d : String) : inDir d (d ++ "/default_seed") = true := by
  unfold inDir
  rw [str_data_append, str_data_append]
  have h1 : ("/default_seed" : String).data = '/' :: ("default_seed" : String).data := rfl
  have h2 : ("/" : String).data = ['/'] := rfl
  rw [h1, h2]
  rw [show d.data ++ '/' :: ("default_seed" : String).data
      = (d.data ++ ['/']) ++ ("default_seed" : String).data from by simp]
  exact chPre_self_append _ _

/-- Writing the placeholder seed into a directory that held no file leaves
the directory holding exactly that seed. -/
theorem filesInDir_seed_write (d : String) (fs : List (String × FileData))
    (h : filesInDir fs d = []) :
    filesInDir (setA fs (d ++ "/default_seed") seedFile) d
      = [(d ++ "/default_seed", seedFile)] := by
  have habs : ∀ p ∈ fs, p.1 ≠ d ++ "/default_seed" := by
    intro p hp he
    have hin : inDir d p.1 = true := by
      rw [he]
      exact inDir_default_seed d
    have hmem : p ∈ filesInDir fs d := List.mem_filter.mpr ⟨hp, hin⟩
    rw [h] at hmem
    exact absurd hmem (List.not_mem_nil p)
  rw [setA_eq_append fs _ seedFile habs]
  unfold filesInDir
  rw [List.filter_append]
  have hfs : fs.filter (fun p => inDir d p.1) = [] := h
  rw [hfs]
  simp [List.filter, inDir_default_seed d]

/-- C7: when the input-corpus directory is empty beforehand, the
environment preparation synthesizes a placeholder seed instead of failing,
and afterwards the directory holds exactly one seed file whose content is
non-empty. -/
theorem c7_empty_corpus_gets_one_seed (i : String) (st : SysState)
    (h : filesInDir st.fs i = []) :
    filesInDir (prepare_fuzz_environment i st).fs i
      = [(i ++ "/default_seed", seedFile)]
    ∧ seedFile.content ≠ "" := by
  constructor
  · show filesInDir (create_seed_file_for_empty_corpus i st.fs) i = _
    unfold create_seed_file_for_empty_corpus
    rw [h]
    exact filesInDir_seed_write i st.fs h
  · decide

def c7St : SysState := SysState.mk [] [] "/w" [] []

/-- Witness for C7 on a concrete empty corpus directory. -/
theorem c7_empty_corpus_gets_one_seed_witness :
    filesInDir (prepare_fuzz_environment "/corpus" c7St).fs "/corpus"
      = [("/corpus" ++ "/default_seed", seedFile)]
    ∧ seedFile.content ≠ "" :=
  c7_empty_corpus_gets_one_seed "/corpus" c7St (by decide)

/-- Seeding an already-seeded corpus directory changes nothing. -/
theorem create_seed_idem (i : String) (fs : List (String × FileData)) :
    create_seed_file_for_empty_corpus i (create_seed_file_for_empty_corpus i fs)
      = create_seed_file_for_empty_corpus i fs := by
  cases h : filesInDir fs i with
  | cons p t => simp [create_seed_file_for_empty_corpus, h]
  | nil =>
    have h2 := filesInDir_seed_write i fs h
    simp [create_seed_file_for_empty_corpus, h, h2]

/-- Running the six AFL environment assignments a second time leaves the
environment table unchanged. -/
theorem prep_env_idem (e : List (String × String)) :
    setA (setA (setA (setA (setA (setA
      (setA (setA (setA (setA (setA (setA e "AFL_NO_UI" "1")
        "AFL_SKIP_CPUFREQ" "1") "AFL_NO_AFFINITY" "1")
        "AFL_I_DONT_CARE_ABOUT_MISSING_CRASHES" "1") "AFL_SKIP_CRASHES" "1")
        "AFL_SHUFFLE_QUEUE" "1")
      "AFL_NO_UI" "1") "AFL_SKIP_CPUFREQ" "1") "AFL_NO_AFFINITY" "1")
      "AFL_I_DONT_CARE_ABOUT_MISSING_CRASHES" "1") "AFL_SKIP_CRASHES" "1")
      "AFL_SHUFFLE_QUEUE" "1"
    = setA (setA (setA (setA (setA (setA e "AFL_NO_UI" "1")
        "AFL_SKIP_CPUFREQ" "1") "AFL_NO_AFFINITY" "1")
        "AFL_I_DONT_CARE_ABOUT_MISSING_CRASHES" "1") "AFL_SKIP_CRASHES" "1")
        "AFL_SHUFFLE_QUEUE" "1" := by
  set E := setA (setA (setA (setA (setA (setA e "AFL_NO_UI" "1")
    "AFL_SKIP_CPUFREQ" "1") "AFL_NO_AFFINITY" "1")
    "AFL_I_DONT_CARE_ABOUT_MISSING_CRASHES" "1") "AFL_SKIP_CRASHES" "1")
    "AFL_SHUFFLE_QUEUE" "1" with hE
  have g1 : getA E "AFL_NO_UI" = some "1" := by
    rw [hE, getA_setA_ne _ _ (by decide), getA_setA_ne _ _ (by decide),
      getA_setA_ne _ _ (by decide), getA_setA_ne _ _ (by decide),
      getA_setA_ne _ _ (by decide), getA_setA_self]
  have g2 : getA E "AFL_SKIP_CPUFREQ" = some "1" := by
    rw [hE, getA_setA_ne _ _ (by decide), getA_setA_ne _ _ (by decide),
      getA_setA_ne _ _ (by decide), getA_setA_ne _ _ (by decide), getA_setA_self]
  have g3 : getA E "AFL_NO_AFFINITY" = some "1" := by
    rw [hE, getA_setA_ne _ _ (by decide), getA_setA_ne _ _ (by decide),
      getA_setA_ne _ _ (by decide), getA_setA_self]
  have g4 : getA E "AFL_I_DONT_CARE_ABOUT_MISSING_CRASHES" = some "1" := by
    rw [hE, getA_setA_ne _ _ (by decide), getA_setA_ne _ _ (by decide),
      getA_setA_self]
  have g5 : getA E "AFL_SKIP_CRASHES" = some "1" := by
    rw [hE, getA_setA_ne _ _ (by decide), getA_setA_self]
  have g6 : getA E "AFL_SHUFFLE_QUEUE" = some "1" := by
    rw [hE, getA_setA_self]
  rw [setA_eq_of_getA _ _ _ g1, setA_eq_of_getA _ _ _ g2,
    setA_eq_of_getA _ _ _ g3, setA_eq_of_getA _ _ _ g4,
    setA_eq_of_getA _ _ _ g5, setA_eq_of_getA _ _ _ g6]

/-- C8: prepare_fuzz_environment is idempotent, a second run on the same
input corpus leaves the whole state unchanged, and every run leaves the six
AFL keys bound to the value 1. -/
theorem c8_prepare_idempotent (i : String) (st : SysState) :
    prepare_fuzz_environment i (prepare_fuzz_environment i st)
      = prepare_fuzz_environment i st
    ∧ getA (prepare_fuzz_environment i st).env "AFL_NO_UI" = some "1"
    ∧ getA (prepare_fuzz_environment i st).env "AFL_SKIP_CPUFREQ" = some "1"
    ∧ getA (prepare_fuzz_environment i st).env "AFL_NO_AFFINITY" = some "1"
    ∧ getA (prepare_fuzz_environment i st).env
        "AFL_I_DONT_CARE_ABOUT_MISSING_CRASHES" = some "1"
    ∧ getA (prepare_fuzz_environment i st).env "AFL_SKIP_CRASHES" = some "1"
    ∧ getA (prepare_fuzz_environment i st).env "AFL_SHUFFLE_QUEUE" = some "1" := by
  refine ⟨?_, ?_, ?_, ?_, ?_, ?_, ?_⟩
  · simp only [prepare_fuzz_environment]
    rw [create_seed_idem, prep_env_idem]
  · show getA _ "AFL_NO_UI" = some "1"
    rw [show (prepare_fuzz_environment i st).env
        = setA (setA (setA (setA (setA (setA st.env "AFL_NO_UI" "1")
          "AFL_SKIP_CPUFREQ" "1") "AFL_NO_AFFINITY" "1")
          "AFL_I_DONT_CARE_ABOUT_MISSING_CRASHES" "1") "AFL_SKIP_CRASHES" "1")
          "AFL_SHUFFLE_QUEUE" "1" from rfl,
      getA_setA_ne _ _ (by decide), getA_setA_ne _ _ (by decide),
      getA_setA_ne _ _ (by decide), getA_setA_ne _ _ (by decide),
      getA_setA_ne _ _ (by decide), getA_setA_self]
  · show getA _ "AFL_SKIP_CPUFREQ" = some "1"
    rw [show (prepare_fuzz_environment i st).env
        = setA (setA (setA (setA (setA (setA st.env "AFL_NO_UI" "1")
          "AFL_SKIP_CPUFREQ" "1") "AFL_NO_AFFINITY" "1")
          "AFL_I_DONT_CARE_ABOUT_MISSING_CRASHES" "1") "AFL_SKIP_CRASHES" "1")
          "AFL_SHUFFLE_QUEUE" "1" from rfl,
      getA_setA_ne _ _ (by decide), getA_setA_ne _ _ (by decide),
      getA_setA_ne _ _ (by decide), getA_setA_ne _ _ (by decide), getA_setA_self]
  · show getA _ "AFL_NO_AFFINITY" = some "1"
    rw [show (prepare_fuzz_environment i st).env
        = setA (setA (setA (setA (setA (setA st.env "AFL_NO_UI" "1")
          "AFL_SKIP_CPUFREQ" "1") "AFL_NO_AFFINITY" "1")
          "AFL_I_DONT_CARE_ABOUT_MISSING_CRASHES" "1") "AFL_SKIP_CRASHES" "1")
          "AFL_SHUFFLE_QUEUE" "1" from rfl,
      getA_setA_ne _ _ (by decide), getA_setA_ne _ _ (by decide),
      getA_setA_ne _ _ (by decide), getA_setA_self]
  · show getA _ "AFL_I_DONT_CARE_ABOUT_MISSING_CRASHES" = some "1"
    rw [show (prepare_fuzz_environment i st).env
        = setA (setA (setA (setA (setA (setA st.env "AFL_NO_UI" "1")
          "AFL_SKIP_CPUFREQ" "1") "AFL_NO_AFFINITY" "1")
          "AFL_I_DONT_CARE_ABOUT_MISSING_CRASHES" "1") "AFL_SKIP_CRASHES" "1")
          "AFL_SHUFFLE_QUEUE" "1" from rfl,
      getA_setA_ne _ _ (by decide), getA_setA_ne _ _ (by decide), getA_setA_self]
  · show getA _ "AFL_SKIP_CRASHES" = some "1"
    rw [show (prepare_fuzz_environment i st).env
        = setA (setA (setA (setA (setA (setA st.env "AFL_NO_UI" "1")
          "AFL_SKIP_CPUFREQ" "1") "AFL_NO_AFFINITY" "1")
          "AFL_I_DONT_CARE_ABOUT_MISSING_CRASHES" "1") "AFL_SKIP_CRASHES" "1")
          "AFL_SHUFFLE_QUEUE" "1" from rfl,
      getA_setA_ne _ _ (by decide), getA_setA_self]
  · show getA _ "AFL_SHUFFLE_QUEUE" = some "1"
    rw [show (prepare_fuzz_environment i st).env
        = setA (setA (setA (setA (setA (setA st.env "AFL_NO_UI" "1")
          "AFL_SKIP_CPUFREQ" "1") "AFL_NO_AFFINITY" "1")
          "AFL_I_DONT_CARE_ABOUT_MISSING_CRASHES" "1") "AFL_SKIP_CRASHES" "1")
          "AFL_SHUFFLE_QUEUE" "1" from rfl,
      getA_setA_self]

/-- Chmodding the path just written updates the mode of the written file. -/
theorem os_chmod_after_write (st : SysState) (p : String) (fd : FileData)
    (m : Nat) :
    os_chmod (fsWrite st p fd) p m
      = fsWrite (fsWrite st p fd) p (FileData.mk fd.content m) := by
  unfold os_chmod fsWrite
  simp [getA_setA_self]

/-- C1, amended: on a successful instrument_binary run with FUZZ_TARGET
sample and OUT /out whose working directory is /out, afterwards both
/out/sample.gtirb and /out/sample.dafl exist, /out/sample is unmodified,
and the wrapper script at its fixed path is present with mode 0o777, which
permits execute for all.  The working-directory hypothesis is needed
because the IR path handed to ddisasm is relative. -/
theorem c1_instrument_success_artifacts (om : Oracle) (st st' : SysState)
    (hft : getA st.env "FUZZ_TARGET" = some "sample")
    (hout : getA st.env "OUT" = some "/out")
    (hcwd : st.cwd = "/out")
    (hrun : instrument_binary om st = Except.ok st') :
    (getA st'.fs "/out/sample.gtirb").isSome = true
    ∧ (getA st'.fs "/out/sample.dafl").isSome = true
    ∧ getA st'.fs "/out/sample" = getA st.fs "/out/sample"
    ∧ getA st'.fs "/src/fuzzers/aflplusplus_ddisasm/assemble.sh"
        = some (FileData.mk create_assembler 511)
    ∧ execBitsAll 511 := by
  simp only [instrument_binary, hft, hout] at hrun
  by_cases hdd : om ["ddisasm", "/out" ++ "/" ++ "sample", "--ir",
      "sample" ++ ".gtirb"] = 0
  · by_cases hpp : om ["gtirb-pprinter", "sample" ++ ".gtirb", "--syntax",
        "att", "--binary", "/out" ++ "/" ++ ("sample" ++ ".dafl"), "--use-gcc",
        "/src/fuzzers/aflplusplus_ddisasm/assemble.sh"] = 0
    · simp only [subprocess_run_check, if_pos hdd, if_pos hpp] at hrun
      have hst : st' = pprinterEffect ("sample" ++ ".gtirb")
          ("/out" ++ "/" ++ ("sample" ++ ".dafl"))
          (recordCall ["gtirb-pprinter", "sample" ++ ".gtirb", "--syntax",
              "att", "--binary", "/out" ++ "/" ++ ("sample" ++ ".dafl"),
              "--use-gcc", "/src/fuzzers/aflplusplus_ddisasm/assemble.sh"]
            (os_chmod
              (fsWrite
                (ddisasmEffect ("/out" ++ "/" ++ "sample") ("sample" ++ ".gtirb")
                  (recordCall ["ddisasm", "/out" ++ "/" ++ "sample", "--ir",
                    "sample" ++ ".gtirb"] st))
                "/src/fuzzers/aflplusplus_ddisasm/assemble.sh"
                (FileData.mk create_assembler 420))
              "/src/fuzzers/aflplusplus_ddisasm/assemble.sh" 511)) := by
        injection hrun with h
        exact h.symm
      subst hst
      rw [os_chmod_after_write]
      have e1 : resolve "/out" ("sample" ++ ".gtirb") = "/out/sample.gtirb" := by
        decide
      have e2 : resolve "/out" "/src/fuzzers/aflplusplus_ddisasm/assemble.sh"
          = "/src/fuzzers/aflplusplus_ddisasm/assemble.sh" := by decide
      have e3 : resolve "/out" ("/out" ++ "/" ++ ("sample" ++ ".dafl"))
          = "/out/sample.dafl" := by decide
      simp only [pprinterEffect, ddisasmEffect, fsWrite, recordCall,
        hcwd, e1, e2, e3]
      refine ⟨?_, ?_, ?_, ?_, ?_⟩
      · rw [getA_setA_ne _ _ (by decide), getA_setA_ne _ _ (by decide),
          getA_setA_ne _ _ (by decide), getA_setA_self]
        rfl
      · rw [getA_setA_self]
        rfl
      · rw [getA_setA_ne _ _ (by decide), getA_setA_ne _ _ (by decide),
          getA_setA_ne _ _ (by decide), getA_setA_ne _ _ (by decide)]
      · rw [getA_setA_ne _ _ (by decide), getA_setA_self]
      · exact ⟨rfl, rfl, rfl⟩
    · simp only [subprocess_run_check, if_pos hdd, if_neg hpp] at hrun
      simp at hrun
  · simp only [subprocess_run_check, if_neg hdd] at hrun
    simp at hrun

def c1xSt : SysState :=
  SysState.mk [("/out/sample", FileData.mk "ELF" 493)]
    [("FUZZ_TARGET", "sample"), ("OUT", "/out")] "/work" ["/out"] []

def c1xRes : SysState :=
  match instrument_binary oracleZero c1xSt with
  | Except.ok s => s
  | Except.error e => e.2

set_option maxRecDepth 100000 in
/-- Counterexample for C1 as stated: a successful instrument_binary run
with FUZZ_TARGET sample and OUT /out whose working directory is /work,
after which /out/sample.gtirb does not exist, because the IR path handed to
ddisasm is relative to the working directory, not placed under OUT. -/
theorem c1_gtirb_lands_in_cwd_counterexample :
    instrument_binary oracleZero c1xSt = Except.ok c1xRes
    ∧ getA c1xRes.fs "/out/sample.gtirb" = none
    ∧ (getA c1xRes.fs "/work/sample.gtirb").isSome = true := by
  refine ⟨by decide, by decide, by decide⟩

def c1wSt : SysState :=
  SysState.mk [("/out/sample", FileData.mk "ELF" 493)]
    [("FUZZ_TARGET", "sample"), ("OUT", "/out")] "/out" ["/out"] []

def c1wRes : SysState :=
  match instrument_binary oracleZero c1wSt with
  | Except.ok s => s
  | Except.error e => e.2

set_option maxRecDepth 100000 in
/-- Witness for the amended C1 on a concrete successful run started in
/out. -/
theorem c1_instrument_success_artifacts_witness :
    getA c1wSt.env "FUZZ_TARGET" = some "sample"
    ∧ getA c1wSt.env "OUT" = some "/out"
    ∧ c1wSt.cwd = "/out"
    ∧ instrument_binary oracleZero c1wSt = Except.ok c1wRes
    ∧ ((getA c1wRes.fs "/out/sample.gtirb").isSome = true
      ∧ (getA c1wRes.fs "/out/sample.dafl").isSome = true
      ∧ getA c1wRes.fs "/out/sample" = getA c1wSt.fs "/out/sample"
      ∧ getA c1wRes.fs "/src/fuzzers/aflplusplus_ddisasm/assemble.sh"
          = some (FileData.mk create_assembler 511)
      ∧ execBitsAll 511) :=
  ⟨by decide, by decide, by decide, by decide,
    c1_instrument_success_artifacts oracleZero c1wSt c1wRes
      (by decide) (by decide) (by decide) (by decide)⟩

end AflDdisasm
